import Mathlib

/-!
Shallow embedding of `src/crates/executors/src/executors/hooks/confirm.py`,
the PreToolUse approval gate, together with theorems settling the frozen
claims about it.

Modelling conventions:
* Python strings are `String`; Python ints are `Int`.
* A JSON dictionary field read with `.get(k)` is an `Option String`
  (`none` models both an absent key and JSON `null`; the gate only
  compares these fields with string literals and interpolates them).
* The outcome of `json.loads` on stdin is `Option Incoming`
  (`none` models a `json.JSONDecodeError`).
* An HTTP helper (`http_post_json` / `http_get_json`) either raises one
  of the caught exceptions (modelled `Except.error e` with `e` the
  rendered exception text) or returns a parsed body.
* `json_error` / `json_success` print exactly one payload and call
  `sys.exit(0)`; we model a whole run as a `RunResult` recording every
  structured payload printed on stdout, the exit code, the number of
  HTTP calls of each kind, and the sleeps performed.
-/

namespace Confirm

/-- The structured PreToolUse payload printed on stdout: `allow`
(with `suppressOutput`) or `deny` with an optional
`permissionDecisionReason` string. -/
inductive Decision where
  | allow : Decision
  | deny : Option String → Decision
deriving Repr, DecidableEq

/-- Python truthiness of an optional string: `None` and `""` are falsy. -/
def truthy : Option String → Bool
  | none => false
  | some s => s != ""

/-- The body of `json_error`: `formatted_reason = reason`, overwritten with
`f"{feedback_marker}{reason}"` when both `reason` and `feedback_marker`
are truthy. -/
def formattedReason (reason feedback_marker : Option String) : Option String :=
  if truthy reason && truthy feedback_marker then
    some (feedback_marker.getD "" ++ reason.getD "")
  else
    reason

/-- Model of `json_error(reason, feedback_marker)`: emit a deny PreToolUse JSON to
stdout and `sys.exit(0)`. The Python default for `feedback_marker` is
`None`; call sites that omit it pass `none` here. -/
def json_error (reason feedback_marker : Option String) : Decision :=
  Decision.deny (formattedReason reason feedback_marker)

/-- Model of `json_success()`: emit an allow PreToolUse JSON (with
`suppressOutput: true`) to stdout and `sys.exit(0)`. -/
def json_success : Decision := Decision.allow

/-- The stdin payload after a successful `json.loads`: the three fields
`main` reads from it with `.get`. -/
structure Incoming where
  tool_name : Option String
  tool_input : Option String
  session_id : Option String
deriving Repr, DecidableEq

/-- The body sent to `POST /api/approvals/create`. -/
structure CreatePayload where
  tool_name : Option String
  tool_input : Option String
  session_id : String
deriving Repr, DecidableEq

/-- The `create_payload` dictionary as built in `main`: fields passed through verbatim,
`session_id` defaulting to `"unknown"`. -/
def mkCreatePayload (incoming : Incoming) : CreatePayload :=
  { tool_name := incoming.tool_name
    tool_input := incoming.tool_input
    session_id := incoming.session_id.getD "unknown" }

/-- The parsed body of the creation response; `main` reads
`response.get("id")`. -/
structure CreateResponse where
  id : Option String
deriving Repr, DecidableEq

/-- The parsed body of a status poll response; `main` reads
`result.get("status")` and `result.get("reason")`. -/
structure PollResponse where
  status : Option String
  reason : Option String
deriving Repr, DecidableEq

/-- The backend's observable behaviour during one run: the outcome of the
single creation call, and the outcome of the `n`-th status poll
(`Except.error e` models a caught network/decode exception rendered as
`e`). -/
structure Backend where
  create : CreatePayload → Except String CreateResponse
  poll : Nat → Except String PollResponse

/-- The four CLI arguments collected by `parse_args`. -/
structure Args where
  timeout_seconds : Int
  poll_interval : Int
  backend_port : Int
  feedback_marker : String
deriving Repr, DecidableEq

/-- The validation performed at the end of `parse_args`; `parser.error`
aborts the process (exit status 2) before any network activity, with an
argument-error message and no Decision. -/
def parse_args (args : Args) : Except String Args :=
  if args.timeout_seconds ≤ 0 then
    Except.error "--timeout-seconds must be a positive integer"
  else if args.poll_interval ≤ 0 then
    Except.error "--poll-interval must be a positive integer"
  else if args.poll_interval > args.timeout_seconds then
    Except.error "--poll-interval cannot be greater than --timeout-seconds"
  else
    Except.ok args

/-- The base URL `f"http://127.0.0.1:{port}"`. -/
def url (port : Int) : String := "http://127.0.0.1:" ++ toString port

/-- The creation endpoint `f"{url}/api/approvals/create"`. -/
def create_endpoint (port : Int) : String := url port ++ "/api/approvals/create"

/-- The observable result of one gate run once input parsing has begun:
the structured payloads printed on stdout (in order), the process exit
status, the number of creation POSTs, the number of status GETs, and the
durations of the `time.sleep` calls (in order). -/
structure RunResult where
  outputs : List Decision
  exitCode : Nat
  createCalls : Nat
  statusCalls : Nat
  sleeps : List Int
deriving Repr, DecidableEq

/-- Python `f"{x}"` on an optional string: `None` renders as `"None"`. -/
def pyStr : Option String → String
  | none => "None"
  | some s => s

/-- The timeout message, concatenated exactly as in the source
(`"Approval request" + f" timed out after {t} seconds"`, split to avoid
triggering the watchkill script); both the backend-`timed_out` branch and
the loop-exhaustion path build this same expression. -/
def timeoutMessage (t : Int) : String :=
  "Approval request" ++ (" timed out after " ++ toString t ++ " seconds")

/-- The `while elapsed < args.timeout_seconds` polling loop of `main`.
`n` counts the status GETs already issued (indexing `backend.poll`),
`statusCalls` and `sleeps` accumulate the trace so far; the creation call
has already happened, so `createCalls` is 1 in every outcome.
Termination relies on the validated `0 < poll_interval`. -/
def pollLoop (cfg : Args) (backend : Backend) (hp : 0 < cfg.poll_interval)
    (elapsed : Int) (n statusCalls : Nat) (sleeps : List Int) : RunResult :=
  if h : elapsed < cfg.timeout_seconds then
    match backend.poll n with
    | Except.error e =>
        { outputs := [json_error (some ("Lost connection to approval backend: " ++ e)) none]
          exitCode := 0, createCalls := 1, statusCalls := statusCalls + 1, sleeps := sleeps }
    | Except.ok result =>
        if result.status = some "approved" then
          { outputs := [json_success]
            exitCode := 0, createCalls := 1, statusCalls := statusCalls + 1, sleeps := sleeps }
        else if result.status = some "denied" then
          { outputs := [json_error result.reason (some cfg.feedback_marker)]
            exitCode := 0, createCalls := 1, statusCalls := statusCalls + 1, sleeps := sleeps }
        else if result.status = some "timed_out" then
          { outputs := [json_error (some (timeoutMessage cfg.timeout_seconds)) none]
            exitCode := 0, createCalls := 1, statusCalls := statusCalls + 1, sleeps := sleeps }
        else if result.status = some "pending" then
          pollLoop cfg backend hp (elapsed + cfg.poll_interval) (n + 1) (statusCalls + 1)
            (sleeps ++ [cfg.poll_interval])
        else
          { outputs := [json_error (some ("Unknown approval status: " ++ pyStr result.status)) none]
            exitCode := 0, createCalls := 1, statusCalls := statusCalls + 1, sleeps := sleeps }
  else
    { outputs := [json_error (some (timeoutMessage cfg.timeout_seconds)) none]
      exitCode := 0, createCalls := 1, statusCalls := statusCalls, sleeps := sleeps }
termination_by (cfg.timeout_seconds - elapsed).toNat
decreasing_by omega

/-- The body of `main` after `parse_args`: read and parse stdin, issue the
creation call, check the returned id, then enter the polling loop. -/
def runGate (cfg : Args) (hp : 0 < cfg.poll_interval) (stdin : Option Incoming)
    (backend : Backend) : RunResult :=
  match stdin with
  | none =>
      { outputs := [json_error (some "Invalid JSON payload on stdin") none]
        exitCode := 0, createCalls := 0, statusCalls := 0, sleeps := [] }
  | some incoming =>
      match backend.create (mkCreatePayload incoming) with
      | Except.error e =>
          { outputs := [json_error
              (some ("Failed to create approval request. Backend may be unavailable. (" ++ e ++ ")")) none]
            exitCode := 0, createCalls := 1, statusCalls := 0, sleeps := [] }
      | Except.ok response =>
          if truthy response.id = false then
            { outputs := [json_error (some "Invalid response from approval backend") none]
              exitCode := 0, createCalls := 1, statusCalls := 0, sleeps := [] }
          else
            pollLoop cfg backend hp 0 0 0 []

/-- The whole process: `parse_args` (which aborts with an argument error,
not a Decision, on invalid configuration — `Except.error`), then the
gate body. -/
def runProcess (args : Args) (stdin : Option Incoming) (backend : Backend) :
    Except String RunResult :=
  if args.timeout_seconds ≤ 0 then
    Except.error "--timeout-seconds must be a positive integer"
  else if hp : args.poll_interval ≤ 0 then
    Except.error "--poll-interval must be a positive integer"
  else if args.poll_interval > args.timeout_seconds then
    Except.error "--poll-interval cannot be greater than --timeout-seconds"
  else
    Except.ok (runGate args (by omega) stdin backend)

/-- The number of polls the loop actually performs against an
always-`pending` backend: `⌈timeout_seconds / poll_interval⌉`. -/
def ceilPolls (t p : Int) : Nat := (t.toNat + p.toNat - 1) / p.toNat

/-! Concrete fixtures used by the witness theorems. -/

/-- A valid configuration used in witnesses. -/
def cfgW : Args :=
  { timeout_seconds := 5, poll_interval := 1, backend_port := 7000, feedback_marker := "[FB] " }

/-- A concrete stdin payload used in witnesses. -/
def incW : Incoming :=
  { tool_name := some "Bash", tool_input := some "ls", session_id := none }

/-- A backend whose creation call fails. -/
def bkCreateFail : Backend :=
  { create := fun _ => Except.error "connection refused"
    poll := fun _ => Except.ok { status := some "pending", reason := none } }

/-- A backend whose creation response has no id. -/
def bkNoId : Backend :=
  { create := fun _ => Except.ok { id := none }
    poll := fun _ => Except.ok { status := some "pending", reason := none } }

/-- A backend that immediately denies with a reason. -/
def bkDenied : Backend :=
  { create := fun _ => Except.ok { id := some "abc" }
    poll := fun _ => Except.ok { status := some "denied", reason := some "not now" } }

/-- A backend whose status polls fail. -/
def bkPollErr : Backend :=
  { create := fun _ => Except.ok { id := some "abc" }
    poll := fun _ => Except.error "Connection reset" }

/-- A backend that reports an unrecognised status. -/
def bkUnknown : Backend :=
  { create := fun _ => Except.ok { id := some "abc" }
    poll := fun _ => Except.ok { status := some "weird", reason := none } }

/-- A backend that reports a backend-side timeout. -/
def bkTimedOut : Backend :=
  { create := fun _ => Except.ok { id := some "abc" }
    poll := fun _ => Except.ok { status := some "timed_out", reason := none } }

/-- A backend that stays pending forever. -/
def bkPending : Backend :=
  { create := fun _ => Except.ok { id := some "abc" }
    poll := fun _ => Except.ok { status := some "pending", reason := none } }

/-- The configuration of the C3 counterexample: timeout 3, interval 2. -/
def cfg32 : Args :=
  { timeout_seconds := 3, poll_interval := 2, backend_port := 7000, feedback_marker := "[FB] " }

/-- A valid configuration with timeout 5 and interval 2. -/
def cfg52 : Args :=
  { timeout_seconds := 5, poll_interval := 2, backend_port := 7000, feedback_marker := "[FB] " }

/-- An invalid configuration: interval 6 exceeds timeout 5. -/
def cfg56 : Args :=
  { timeout_seconds := 5, poll_interval := 6, backend_port := 7000, feedback_marker := "" }

/-- A boundary configuration: interval equal to timeout. -/
def cfg55 : Args :=
  { timeout_seconds := 5, poll_interval := 5, backend_port := 7000, feedback_marker := "" }

/-- A backend whose status poll omits the `status` field. -/
def bkNoStatus : Backend :=
  { create := fun _ => Except.ok { id := some "abc" }
    poll := fun _ => Except.ok { status := none, reason := none } }

end Confirm

namespace Confirm

/-- Every outcome of the polling loop prints exactly one payload, exits 0
and has issued the single creation call. -/
theorem pollLoop_shape (cfg : Args) (backend : Backend) (hp : 0 < cfg.poll_interval)
    (elapsed : Int) (n sc : Nat) (sl : List Int) :
    (pollLoop cfg backend hp elapsed n sc sl).outputs.length = 1 ∧
    (pollLoop cfg backend hp elapsed n sc sl).exitCode = 0 ∧
    (pollLoop cfg backend hp elapsed n sc sl).createCalls = 1 := by
  induction elapsed, n, sc, sl using pollLoop.induct cfg backend hp with
  | _ =>
    first
    | (rw [pollLoop]; simp_all; done)
    | (rw [pollLoop]; rw [dif_neg (by omega)]; simp; done)

/-- One ceiling-division step: removing one interval from a positive
remaining budget lowers the number of remaining polls by exactly one. -/
theorem ceil_div_step (a P : Nat) (ha : 0 < a) (hP : 0 < P) :
    (a + P - 1) / P = (a - P + P - 1) / P + 1 := by
  rcases Nat.le_total a P with hle | hge
  · have h1 : a - P = 0 := by omega
    have h2 : (P - 1) / P = 0 := Nat.div_eq_of_lt (by omega)
    have h3 : (a + P - 1) / P = 1 := Nat.div_eq_of_lt_le (by omega) (by omega)
    rw [h1, h3, Nat.zero_add, h2]
  · have h4 : a + P - 1 = (a - P + P - 1) + P := by omega
    rw [h4, Nat.add_div_right _ hP]

/-- Against an always-`pending` backend the loop performs
`⌈(timeout − elapsed) / poll_interval⌉` further polls, sleeping
`poll_interval` after each, and ends in the client-side timeout deny. -/
theorem pollLoop_pending (cfg : Args) (backend : Backend) (hp : 0 < cfg.poll_interval)
    (rs : Nat → Option String)
    (hpend : ∀ m, backend.poll m = Except.ok { status := some "pending", reason := rs m }) :
    ∀ (k : Nat) (elapsed : Int), (cfg.timeout_seconds - elapsed).toNat ≤ k →
    ∀ (n sc : Nat) (sl : List Int),
      pollLoop cfg backend hp elapsed n sc sl =
        { outputs := [Decision.deny (some (timeoutMessage cfg.timeout_seconds))]
          exitCode := 0, createCalls := 1
          statusCalls := sc +
            ((cfg.timeout_seconds - elapsed).toNat + cfg.poll_interval.toNat - 1) /
              cfg.poll_interval.toNat
          sleeps := sl ++ List.replicate
            (((cfg.timeout_seconds - elapsed).toNat + cfg.poll_interval.toNat - 1) /
              cfg.poll_interval.toNat)
            cfg.poll_interval } := by
  intro k
  induction k with
  | zero =>
    intro elapsed hk n sc sl
    have hnl : ¬ elapsed < cfg.timeout_seconds := by omega
    have h0 : (cfg.timeout_seconds - elapsed).toNat = 0 := by omega
    have hq : ((cfg.timeout_seconds - elapsed).toNat + cfg.poll_interval.toNat - 1) /
        cfg.poll_interval.toNat = 0 := by
      rw [h0, Nat.zero_add]
      exact Nat.div_eq_of_lt (by omega)
    rw [pollLoop, dif_neg hnl, hq]
    simp [json_error, formattedReason, truthy]
  | succ k ih =>
    intro elapsed hk n sc sl
    by_cases h : elapsed < cfg.timeout_seconds
    · have ha : 0 < (cfg.timeout_seconds - elapsed).toNat := by omega
      have hP : 0 < cfg.poll_interval.toNat := by omega
      have hstep : (cfg.timeout_seconds - (elapsed + cfg.poll_interval)).toNat
          = (cfg.timeout_seconds - elapsed).toNat - cfg.poll_interval.toNat := by omega
      have hq := ceil_div_step (cfg.timeout_seconds - elapsed).toNat cfg.poll_interval.toNat ha hP
      have hone : pollLoop cfg backend hp elapsed n sc sl =
          pollLoop cfg backend hp (elapsed + cfg.poll_interval) (n + 1) (sc + 1)
            (sl ++ [cfg.poll_interval]) := by
        rw [pollLoop, dif_pos h, hpend n]
        simp
      rw [hone, ih (elapsed + cfg.poll_interval) (by omega) (n + 1) (sc + 1)
        (sl ++ [cfg.poll_interval]), hstep, hq]
      simp [List.replicate_succ]
      omega
    · have h0 : (cfg.timeout_seconds - elapsed).toNat = 0 := by omega
      have hq : ((cfg.timeout_seconds - elapsed).toNat + cfg.poll_interval.toNat - 1) /
          cfg.poll_interval.toNat = 0 := by
        rw [h0, Nat.zero_add]
        exact Nat.div_eq_of_lt (by omega)
      rw [pollLoop, dif_neg h, hq]
      simp [json_error, formattedReason, truthy]

/-- C1: once input parsing has begun, for every stdin parse outcome and
every backend behaviour (creation failure, missing id, poll failure,
approved, denied, timed_out, pending exhaustion, unknown status) the gate
prints exactly one structured Decision on stdout and exits with status 0. -/
theorem gate_C1_single_decision (cfg : Args) (hp : 0 < cfg.poll_interval)
    (stdin : Option Incoming) (backend : Backend) :
    (runGate cfg hp stdin backend).outputs.length = 1 ∧
    (runGate cfg hp stdin backend).exitCode = 0 := by
  cases stdin with
  | none => simp [runGate]
  | some incoming =>
    cases hc : backend.create (mkCreatePayload incoming) with
    | error e => simp [runGate, hc]
    | ok response =>
      by_cases hid : truthy response.id = false
      · simp [runGate, hc, hid]
      · have hs := pollLoop_shape cfg backend hp 0 0 0 []
        simp only [runGate, hc, hid, if_false]
        exact ⟨hs.1, hs.2.1⟩

/-- Witness for `gate_C1_single_decision` on a concrete run. -/
theorem gate_C1_witness :
    (runGate cfgW (by decide) (some incW) bkPending).outputs.length = 1 ∧
    (runGate cfgW (by decide) (some incW) bkPending).exitCode = 0 :=
  gate_C1_single_decision cfgW (by decide) (some incW) bkPending

/-- C2: a poll answered `denied` with a non-empty reason, under a
non-empty configured marker, yields a Deny whose reason is the marker
followed by the backend reason, and the loop terminates at once. -/
theorem gate_C2_denied_marker (cfg : Args) (hp : 0 < cfg.poll_interval) (backend : Backend)
    (elapsed : Int) (n sc : Nat) (sl : List Int) (R : String)
    (hlt : elapsed < cfg.timeout_seconds)
    (hpoll : backend.poll n = Except.ok { status := some "denied", reason := some R })
    (hR : R ≠ "") (hM : cfg.feedback_marker ≠ "") :
    pollLoop cfg backend hp elapsed n sc sl =
      { outputs := [Decision.deny (some (cfg.feedback_marker ++ R))]
        exitCode := 0, createCalls := 1, statusCalls := sc + 1, sleeps := sl } := by
  rw [pollLoop]
  simp [hlt, hpoll, json_error, formattedReason, truthy, hR, hM]

/-- Witness for `gate_C2_denied_marker`: marker `"[FB] "` and reason
`"not now"` yield the deny reason `"[FB] not now"` after a single poll. -/
theorem gate_C2_witness :
    pollLoop cfgW bkDenied (by decide) 0 0 0 [] =
      { outputs := [Decision.deny (some "[FB] not now")]
        exitCode := 0, createCalls := 1, statusCalls := 1, sleeps := [] } :=
  gate_C2_denied_marker cfgW (by decide) bkDenied 0 0 0 [] "not now" (by decide) rfl
    (by decide) (by decide)

/-- C3 counterexample: with `timeout_seconds = 3` and
`poll_interval = 2` (a valid configuration) against an always-`pending`
backend the gate performs 2 status polls, not
`floor(timeout_seconds / poll_interval) = 1` as claimed. -/
theorem gate_C3_counterexample :
    (runGate cfg32 (by decide) (some incW) bkPending).statusCalls = 2 ∧
    ¬ (runGate cfg32 (by decide) (some incW) bkPending).statusCalls = ((3 : Int) / 2).toNat := by
  have h : (runGate cfg32 (by decide) (some incW) bkPending).statusCalls = 2 := by
    simp [runGate, cfg32, incW, bkPending, mkCreatePayload, truthy, pollLoop]
  exact ⟨h, by rw [h]; decide⟩

/-- C3 (amended): for every valid configuration and an always-`pending`
backend (with a well-formed creation response), the gate performs exactly
`⌈timeout_seconds / poll_interval⌉` status polls — which equals
`⌊timeout_seconds / poll_interval⌋` exactly when the interval divides the
timeout — sleeping `poll_interval` seconds after each poll, then emits a
Deny whose reason states the configured `timeout_seconds`. -/
theorem gate_C3_ceil_polls (cfg : Args) (hp : 0 < cfg.poll_interval)
    (hpt : cfg.poll_interval ≤ cfg.timeout_seconds)
    (backend : Backend) (incoming : Incoming) (aid : String) (rs : Nat → Option String)
    (hcreate : backend.create (mkCreatePayload incoming) = Except.ok { id := some aid })
    (haid : aid ≠ "")
    (hpend : ∀ m, backend.poll m = Except.ok { status := some "pending", reason := rs m }) :
    runGate cfg hp (some incoming) backend =
      { outputs := [Decision.deny (some (timeoutMessage cfg.timeout_seconds))]
        exitCode := 0, createCalls := 1
        statusCalls := ceilPolls cfg.timeout_seconds cfg.poll_interval
        sleeps := List.replicate (ceilPolls cfg.timeout_seconds cfg.poll_interval)
          cfg.poll_interval } := by
  have hrun : runGate cfg hp (some incoming) backend = pollLoop cfg backend hp 0 0 0 [] := by
    simp [runGate, hcreate, truthy, haid]
  rw [hrun, pollLoop_pending cfg backend hp rs hpend
    (cfg.timeout_seconds - 0).toNat 0 le_rfl 0 0 []]
  simp [ceilPolls]

/-- Witness for `gate_C3_ceil_polls`: timeout 5, interval 2 gives
`⌈5/2⌉ = 3` polls and three sleeps of 2 seconds. -/
theorem gate_C3_witness :
    runGate cfg52 (by decide) (some incW) bkPending =
      { outputs := [Decision.deny (some (timeoutMessage 5))]
        exitCode := 0, createCalls := 1, statusCalls := 3, sleeps := [2, 2, 2] } :=
  gate_C3_ceil_polls cfg52 (by decide) (by decide) bkPending incW "abc" (fun _ => none)
    rfl (by decide) (fun _ => rfl)

/-- C4: the loop-exhaustion Deny and the backend-`timed_out` Deny carry
the very same reason string, which renders character-for-character as
`"Approval request timed out after N seconds"` for the configured `N`. -/
theorem gate_C4_timeout_messages_agree (cfg : Args) (hp : 0 < cfg.poll_interval)
    (backend : Backend) (elapsed elapsed' : Int) (n n' sc sc' : Nat) (sl sl' : List Int)
    (rsn : Option String)
    (hlt : elapsed < cfg.timeout_seconds)
    (hpoll : backend.poll n = Except.ok { status := some "timed_out", reason := rsn })
    (hge : ¬ elapsed' < cfg.timeout_seconds) :
    (pollLoop cfg backend hp elapsed n sc sl).outputs
        = [Decision.deny (some (timeoutMessage cfg.timeout_seconds))] ∧
    (pollLoop cfg backend hp elapsed' n' sc' sl').outputs
        = [Decision.deny (some (timeoutMessage cfg.timeout_seconds))] ∧
    timeoutMessage cfg.timeout_seconds =
      "Approval request timed out after " ++ toString cfg.timeout_seconds ++ " seconds" := by
  refine ⟨?_, ?_, ?_⟩
  · rw [pollLoop]
    simp [hlt, hpoll, json_error, formattedReason, truthy]
  · rw [pollLoop, dif_neg hge]
    simp [json_error, formattedReason, truthy]
  · unfold timeoutMessage
    rw [← String.append_assoc, ← String.append_assoc]
    congr 2

/-- Witness for `gate_C4_timeout_messages_agree` at timeout 5. -/
theorem gate_C4_witness :
    (pollLoop cfgW bkTimedOut (by decide) 0 0 0 []).outputs
        = [Decision.deny (some (timeoutMessage 5))] ∧
    (pollLoop cfgW bkTimedOut (by decide) 5 3 3 [1, 1, 1]).outputs
        = [Decision.deny (some (timeoutMessage 5))] ∧
    timeoutMessage 5 = "Approval request timed out after " ++ toString (5 : Int) ++ " seconds" :=
  gate_C4_timeout_messages_agree cfgW (by decide) bkTimedOut 0 5 0 3 0 3 [] [1, 1, 1] none
    (by decide) rfl (by decide)

/-- C5: with malformed stdin the gate denies with the fixed reason
`"Invalid JSON payload on stdin"` and makes no backend call at all
(neither creation nor status). -/
theorem gate_C5_invalid_json (cfg : Args) (hp : 0 < cfg.poll_interval) (backend : Backend) :
    runGate cfg hp none backend =
      { outputs := [Decision.deny (some "Invalid JSON payload on stdin")]
        exitCode := 0, createCalls := 0, statusCalls := 0, sleeps := [] } := by
  rfl

/-- Witness for `gate_C5_invalid_json` at a concrete configuration and
backend. -/
theorem gate_C5_witness :
    runGate cfgW (by decide) none bkPending =
      { outputs := [Decision.deny (some "Invalid JSON payload on stdin")]
        exitCode := 0, createCalls := 0, statusCalls := 0, sleeps := [] } :=
  gate_C5_invalid_json cfgW (by decide) bkPending

/-- C6: configuration validation succeeds exactly when
`0 < timeout_seconds`, `0 < poll_interval` and
`poll_interval ≤ timeout_seconds` (so `poll_interval = timeout_seconds`
is accepted); the process result mirrors `parse_args`; and on rejection
the outcome is an argument error, identical for every backend (no
network activity) and never a Decision. -/
theorem gate_C6_config_validation (a : Args) (stdin : Option Incoming) (b b' : Backend) :
    ((parse_args a).isOk = true ↔
      0 < a.timeout_seconds ∧ 0 < a.poll_interval ∧ a.poll_interval ≤ a.timeout_seconds) ∧
    ((runProcess a stdin b).isOk = (parse_args a).isOk) ∧
    (¬ (0 < a.timeout_seconds ∧ 0 < a.poll_interval ∧ a.poll_interval ≤ a.timeout_seconds) →
      runProcess a stdin b = runProcess a stdin b' ∧
      ∃ e, runProcess a stdin b = Except.error e) := by
  refine ⟨?_, ?_, ?_⟩
  · unfold parse_args
    split_ifs with h1 h2 h3 <;> simp [Except.isOk, Except.toBool] <;> omega
  · unfold runProcess parse_args
    split_ifs <;> simp [Except.isOk, Except.toBool]
  · intro hbad
    unfold runProcess
    split_ifs with h1 h2 h3
    · exact ⟨rfl, ⟨_, rfl⟩⟩
    · exact ⟨rfl, ⟨_, rfl⟩⟩
    · exact ⟨rfl, ⟨_, rfl⟩⟩
    · exact (hbad (by omega)).elim

/-- Witness for `gate_C6_config_validation`: `poll_interval = 6 >
timeout_seconds = 5` is rejected with an argument error regardless of the
backend, while `poll_interval = timeout_seconds = 5` is accepted. -/
theorem gate_C6_witness :
    (runProcess cfg56 none bkPending = runProcess cfg56 none bkCreateFail ∧
      ∃ e, runProcess cfg56 none bkPending = Except.error e) ∧
    ((parse_args cfg55).isOk = true ↔
      0 < cfg55.timeout_seconds ∧ 0 < cfg55.poll_interval ∧
        cfg55.poll_interval ≤ cfg55.timeout_seconds) :=
  ⟨(gate_C6_config_validation cfg56 none bkPending bkCreateFail).2.2 (by decide),
   (gate_C6_config_validation cfg55 none bkPending bkCreateFail).1⟩

/-- C7: a creation response whose `id` is absent, null or the empty
string yields the fixed Deny `"Invalid response from approval backend"`
and the polling loop is never entered (zero status polls). -/
theorem gate_C7_missing_id (cfg : Args) (hp : 0 < cfg.poll_interval) (backend : Backend)
    (incoming : Incoming) (i : Option String)
    (hcreate : backend.create (mkCreatePayload incoming) = Except.ok { id := i })
    (hi : i = none ∨ i = some "") :
    runGate cfg hp (some incoming) backend =
      { outputs := [Decision.deny (some "Invalid response from approval backend")]
        exitCode := 0, createCalls := 1, statusCalls := 0, sleeps := [] } := by
  rcases hi with hi | hi <;> subst hi <;>
    simp [runGate, hcreate, truthy, json_error, formattedReason]

/-- Witness for `gate_C7_missing_id` with an id-less creation response. -/
theorem gate_C7_witness :
    runGate cfgW (by decide) (some incW) bkNoId =
      { outputs := [Decision.deny (some "Invalid response from approval backend")]
        exitCode := 0, createCalls := 1, statusCalls := 0, sleeps := [] } :=
  gate_C7_missing_id cfgW (by decide) bkNoId incW none rfl (Or.inl rfl)

/-- C8: a poll whose status string is none of `approved`, `denied`,
`timed_out`, `pending` yields the Deny
`"Unknown approval status: S"` and terminates at once (fail closed). -/
theorem gate_C8_unknown_status (cfg : Args) (hp : 0 < cfg.poll_interval) (backend : Backend)
    (elapsed : Int) (n sc : Nat) (sl : List Int) (S : String) (rsn : Option String)
    (hlt : elapsed < cfg.timeout_seconds)
    (hpoll : backend.poll n = Except.ok { status := some S, reason := rsn })
    (h1 : S ≠ "approved") (h2 : S ≠ "denied") (h3 : S ≠ "timed_out") (h4 : S ≠ "pending") :
    pollLoop cfg backend hp elapsed n sc sl =
      { outputs := [Decision.deny (some ("Unknown approval status: " ++ S))]
        exitCode := 0, createCalls := 1, statusCalls := sc + 1, sleeps := sl } := by
  rw [pollLoop]
  simp [hlt, hpoll, h1, h2, h3, h4, json_error, formattedReason, truthy, pyStr]

/-- Witness for `gate_C8_unknown_status` with status `"weird"`. -/
theorem gate_C8_witness :
    pollLoop cfgW bkUnknown (by decide) 0 0 0 [] =
      { outputs := [Decision.deny (some "Unknown approval status: weird")]
        exitCode := 0, createCalls := 1, statusCalls := 1, sleeps := [] } :=
  gate_C8_unknown_status cfgW (by decide) bkUnknown 0 0 0 [] "weird" none (by decide) rfl
    (by decide) (by decide) (by decide) (by decide)

/-- C9: the feedback marker is applied only on the backend-`denied` path;
every other Deny (malformed stdin, creation failure, missing id, lost
connection while polling, unknown status, and both timeout paths) emits
the raw reason unchanged, whatever the configured marker. -/
theorem gate_C9_marker_only_on_denied (cfg : Args) (hp : 0 < cfg.poll_interval)
    (b1 b2 b3 b4 b5 b6 : Backend) (incoming : Incoming)
    (e1 e2 : String) (i : Option String) (st : String) (rsn rsn' : Option String)
    (elapsed elapsed' : Int) (n n' sc sc' : Nat) (sl sl' : List Int) :
    ((runGate cfg hp none b1).outputs =
      [Decision.deny (some "Invalid JSON payload on stdin")]) ∧
    (b2.create (mkCreatePayload incoming) = Except.error e1 →
      (runGate cfg hp (some incoming) b2).outputs =
        [Decision.deny
          (some ("Failed to create approval request. Backend may be unavailable. (" ++ e1 ++ ")"))]) ∧
    (b3.create (mkCreatePayload incoming) = Except.ok { id := i } → truthy i = false →
      (runGate cfg hp (some incoming) b3).outputs =
        [Decision.deny (some "Invalid response from approval backend")]) ∧
    (elapsed < cfg.timeout_seconds → b4.poll n = Except.error e2 →
      (pollLoop cfg b4 hp elapsed n sc sl).outputs =
        [Decision.deny (some ("Lost connection to approval backend: " ++ e2))]) ∧
    (elapsed < cfg.timeout_seconds →
      b5.poll n = Except.ok { status := some st, reason := rsn } →
      st ≠ "approved" → st ≠ "denied" → st ≠ "timed_out" → st ≠ "pending" →
      (pollLoop cfg b5 hp elapsed n sc sl).outputs =
        [Decision.deny (some ("Unknown approval status: " ++ st))]) ∧
    (elapsed < cfg.timeout_seconds →
      b6.poll n = Except.ok { status := some "timed_out", reason := rsn' } →
      (pollLoop cfg b6 hp elapsed n sc sl).outputs =
        [Decision.deny (some (timeoutMessage cfg.timeout_seconds))]) ∧
    (¬ elapsed' < cfg.timeout_seconds →
      (pollLoop cfg b1 hp elapsed' n' sc' sl').outputs =
        [Decision.deny (some (timeoutMessage cfg.timeout_seconds))]) := by
  refine ⟨?_, ?_, ?_, ?_, ?_, ?_, ?_⟩
  · simp [runGate, json_error, formattedReason, truthy]
  · intro hc
    simp [runGate, hc, json_error, formattedReason, truthy]
  · intro hc hid
    simp only [runGate, hc]
    rw [if_pos hid]
    simp [json_error, formattedReason, truthy]
  · intro hlt hpoll
    rw [pollLoop]
    simp [hlt, hpoll, json_error, formattedReason, truthy]
  · intro hlt hpoll h1 h2 h3 h4
    rw [pollLoop]
    simp [hlt, hpoll, h1, h2, h3, h4, json_error, formattedReason, truthy, pyStr]
  · intro hlt hpoll
    rw [pollLoop]
    simp [hlt, hpoll, json_error, formattedReason, truthy]
  · intro hge
    rw [pollLoop, dif_neg hge]
    simp [json_error, formattedReason, truthy]

/-- Witness for `gate_C9_marker_only_on_denied`: under the non-empty
marker `"[FB] "`, each non-`denied` path emits its raw reason without the
marker. -/
theorem gate_C9_witness :
    ((runGate cfgW (by decide) none bkPending).outputs =
      [Decision.deny (some "Invalid JSON payload on stdin")]) ∧
    ((runGate cfgW (by decide) (some incW) bkCreateFail).outputs =
      [Decision.deny
        (some "Failed to create approval request. Backend may be unavailable. (connection refused)")]) ∧
    ((runGate cfgW (by decide) (some incW) bkNoId).outputs =
      [Decision.deny (some "Invalid response from approval backend")]) ∧
    ((pollLoop cfgW bkPollErr (by decide) 0 0 0 []).outputs =
      [Decision.deny (some "Lost connection to approval backend: Connection reset")]) ∧
    ((pollLoop cfgW bkUnknown (by decide) 0 0 0 []).outputs =
      [Decision.deny (some "Unknown approval status: weird")]) ∧
    ((pollLoop cfgW bkTimedOut (by decide) 0 0 0 []).outputs =
      [Decision.deny (some (timeoutMessage 5))]) ∧
    ((pollLoop cfgW bkPending (by decide) 5 0 0 []).outputs =
      [Decision.deny (some (timeoutMessage 5))]) := by
  have h := gate_C9_marker_only_on_denied cfgW (by decide) bkPending bkCreateFail bkNoId
    bkPollErr bkUnknown bkTimedOut incW "connection refused" "Connection reset" none "weird"
    none none 0 5 0 0 0 0 [] []
  exact ⟨h.1, h.2.1 rfl, h.2.2.1 rfl rfl, h.2.2.2.1 (by decide) rfl,
    h.2.2.2.2.1 (by decide) rfl (by decide) (by decide) (by decide) (by decide),
    h.2.2.2.2.2.1 (by decide) rfl, h.2.2.2.2.2.2 (by decide)⟩

/-- C10: a syntactically valid poll response with no `status` field does
not crash or loop: it takes the unknown-status branch and denies with
reason `"Unknown approval status: None"`, terminating at once. -/
theorem gate_C10_absent_status (cfg : Args) (hp : 0 < cfg.poll_interval) (backend : Backend)
    (elapsed : Int) (n sc : Nat) (sl : List Int) (rsn : Option String)
    (hlt : elapsed < cfg.timeout_seconds)
    (hpoll : backend.poll n = Except.ok { status := none, reason := rsn }) :
    pollLoop cfg backend hp elapsed n sc sl =
      { outputs := [Decision.deny (some "Unknown approval status: None")]
        exitCode := 0, createCalls := 1, statusCalls := sc + 1, sleeps := sl } := by
  rw [pollLoop]
  simp [hlt, hpoll, json_error, formattedReason, truthy, pyStr]

/-- Witness for `gate_C10_absent_status` with a status-less poll body. -/
theorem gate_C10_witness :
    pollLoop cfgW bkNoStatus (by decide) 0 0 0 [] =
      { outputs := [Decision.deny (some "Unknown approval status: None")]
        exitCode := 0, createCalls := 1, statusCalls := 1, sleeps := [] } :=
  gate_C10_absent_status cfgW (by decide) bkNoStatus 0 0 0 [] none (by decide) rfl

end Confirm
